import Mathlib

/-!
Shallow embedding of `src/ash/src/entry.rs` (the `ash` Vulkan dynamic-loading
entry point) in Lean 4, together with theorems settling the specification
claims about it.

Modelling conventions:
* Raw pointers (`*const c_void`, typed function pointers) are `Ptr := Nat`,
  with `nullPtr = 0`.  `mem::transmute` between pointer types is the identity.
* `vk::Result` is `Int` (Vulkan status codes are `i32`), with `SUCCESS = 0`.
* Native calls reached through a resolved function pointer are opaque to the
  Rust code; they are modelled as explicit mock parameters (a "driver"):
  a native function that writes through out-pointers is a Lean function
  returning the written values alongside its status.
* The stateful `FnMut` symbol resolver is modelled by explicit state passing:
  `L → Name → Ptr × L`.
* `Vec` memory is modelled as `List (Option α)`: `some` for slots the driver
  actually wrote, `none` for slots exposed by `set_len` without having been
  written.
-/

/-- A raw pointer value; `0` is the null pointer. -/
abbrev Ptr := Nat

def nullPtr : Ptr := 0

/-- A symbol name (`&CStr` in the source). -/
abbrev Name := String

/-- Rust `vk::Result`: a raw Vulkan status code (`i32`). -/
abbrev VkResult := Int

/-- Status `vk::Result::SUCCESS`. -/
def VkResult.SUCCESS : VkResult := 0

/-- Rust `vk::Instance`: a raw dispatchable handle. -/
abbrev VkInstance := Nat

/-- Handle `vk::Instance::null()`. -/
def VkInstance.null : VkInstance := 0

/-- Payload of one `vk::LayerProperties` record (contents are opaque to
`entry.rs`; only their count matters to the loader). -/
structure LayerProperties where
  raw : Nat
  deriving Repr, DecidableEq

/-- Payload of one `vk::ExtensionProperties` record (opaque to `entry.rs`). -/
structure ExtensionProperties where
  raw : Nat
  deriving Repr, DecidableEq

/-- Mock of a native two-call enumeration entry point reached through a
resolved function pointer.  `call1` is the behaviour of the count probe
(`p_data = null`): the status it returns and the count it writes through
`&mut num`.  `call2` is the behaviour of the fill call as a function of the
count passed in through `&mut num`: the status it returns, the count it
writes back through `&mut num`, and the list of elements it actually writes
into the caller's buffer. -/
structure MockEnum (α : Type) where
  call1 : VkResult × Nat
  call2 : Nat → VkResult × Nat × List α

/-- The observable outcome of one two-call enumeration: the returned
`VkResult<Vec<_>>`, plus the capacity requested from `Vec::with_capacity`
and the length passed to `set_len` (needed to reason about the safety of
the `set_len` call). -/
structure EnumOutcome (α : Type) where
  result : Except VkResult (List (Option α))
  capacity : Nat
  setLen : Nat

/-- The logical contents of a `Vec` after the driver wrote `written` and the
code ran `set_len len`: the written prefix, padded with uninitialised slots. -/
def vecAfterSetLen {α : Type} (written : List α) (len : Nat) : List (Option α) :=
  (written.map some ++ List.replicate (len - written.length) none).take len

/-- Method `EntryV1_0::enumerate_instance_layer_properties` (entry.rs lines 87-103),
with the native function pointer's behaviour supplied as mock `m`:

    let mut num = 0;
    self.fp_v1_0().enumerate_instance_layer_properties(&mut num, ptr::null_mut());
    let mut v = Vec::with_capacity(num as usize);
    let err_code = self.fp_v1_0().enumerate_instance_layer_properties(&mut num, v.as_mut_ptr());
    v.set_len(num as usize);
    match err_code { vk::Result::SUCCESS => Ok(v), _ => Err(err_code) }

Note the status returned by the first (count probe) call is discarded. -/
def enumerate_instance_layer_properties (m : MockEnum LayerProperties) :
    EnumOutcome LayerProperties :=
  let num := m.call1.2
  let r2 := m.call2 num
  let err_code := r2.1
  let num' := r2.2.1
  let written := r2.2.2
  let v := vecAfterSetLen written num'
  { result := if err_code = VkResult.SUCCESS then .ok v else .error err_code
    capacity := num
    setLen := num' }

/-- Method `EntryV1_0::enumerate_instance_extension_properties` (entry.rs lines
106-126): identical two-call idiom, the extra `p_layer_name` argument is
`ptr::null()` and is absorbed into the mock.  The first call's status is
likewise discarded. -/
def enumerate_instance_extension_properties (m : MockEnum ExtensionProperties) :
    EnumOutcome ExtensionProperties :=
  let num := m.call1.2
  let r2 := m.call2 num
  let err_code := r2.1
  let num' := r2.2.1
  let written := r2.2.2
  let data := vecAfterSetLen written num'
  { result := if err_code = VkResult.SUCCESS then .ok data else .error err_code
    capacity := num
    setLen := num' }

/-- Modelled from the spec: `vk::StaticFn` is generated code not present under
`src/`; per the spec it is "a fixed record of raw function pointers resolved
once at load time from a hard-coded set of names", "exposing exactly one entry
point (`get_instance_proc_addr`-equivalent)". -/
structure StaticFn where
  get_instance_proc_addr : Ptr
  deriving Repr, DecidableEq

/-- Modelled from the spec: `vk::StaticFn::load` is generated code not present
under `src/`; per the spec it resolves each bootstrap name through the
supplied resolver in one pass, never fails, and stores the result even if
null.  The `FnMut` resolver is threaded as explicit state of type `L`. -/
def StaticFn.load {L : Type} (f : L → Name → Ptr × L) (lib : L) : StaticFn × L :=
  let r := f lib "vkGetInstanceProcAddr"
  ({ get_instance_proc_addr := r.1 }, r.2)

/-- Modelled from the spec: `vk::EntryFnV1_0` is generated code not present
under `src/`; per the spec, Tier 0 holds the instance-creation and the two
instance-level enumeration entry points. -/
structure EntryFnV1_0 where
  create_instance : Ptr
  enumerate_instance_extension_properties : Ptr
  enumerate_instance_layer_properties : Ptr
  deriving Repr, DecidableEq

/-- Modelled from the spec: `vk::EntryFnV1_0::load` resolves each of the
tier's names through the supplied function (which here is the closure built
in `new_custom` over `get_instance_proc_addr`), storing the result even if
null, never failing. -/
def EntryFnV1_0.load (f : Name → Ptr) : EntryFnV1_0 :=
  { create_instance := f "vkCreateInstance"
    enumerate_instance_extension_properties :=
      f "vkEnumerateInstanceExtensionProperties"
    enumerate_instance_layer_properties :=
      f "vkEnumerateInstanceLayerProperties" }

/-- Modelled from the spec: `vk::EntryFnV1_1` is generated code not present
under `src/`; Tier 1 adds the instance-version query. -/
structure EntryFnV1_1 where
  enumerate_instance_version : Ptr
  deriving Repr, DecidableEq

/-- Modelled from the spec: `vk::EntryFnV1_1::load`, same contract as the
Tier 0 loader. -/
def EntryFnV1_1.load (f : Name → Ptr) : EntryFnV1_1 :=
  { enumerate_instance_version := f "vkEnumerateInstanceVersion" }

/-- Type `LoadingError` (entry.rs lines 42-45). -/
inductive LoadingError where
  | LibraryLoadError (msg : String)
  deriving Repr, DecidableEq

/-- Type `InstanceError` (entry.rs lines 57-61). -/
inductive InstanceError where
  | LoadError (msgs : List String)
  | VkError (r : VkResult)
  deriving Repr, DecidableEq

/-- Type `EntryCustom<L>` (entry.rs lines 35-40). -/
structure EntryCustom (L : Type) where
  static_fn : StaticFn
  entry_fn_1_0 : EntryFnV1_0
  entry_fn_1_1 : EntryFnV1_1
  lib : L

/-- The semantics of calling through a resolved `vkGetInstanceProcAddr`-typed
function pointer is native behaviour outside the Rust code; it is modelled as
an explicit parameter: given the pointer being invoked, the instance handle
and the name, it yields the resolved address. -/
abbrev GipaSem := Ptr → VkInstance → Name → Ptr

/-- Constructor `EntryCustom::new_custom` (entry.rs lines 217-239):

    let mut lib = open()?;
    let static_fn = vk::StaticFn::load(|name| load(&mut lib, name));
    let entry_fn_1_0 = vk::EntryFnV1_0::load(|name| unsafe {
        mem::transmute(static_fn.get_instance_proc_addr(vk::Instance::null(), name.as_ptr()))
    });
    let entry_fn_1_1 = vk::EntryFnV1_1::load(|name| ...same...);
    Ok(EntryCustom { static_fn, entry_fn_1_0, entry_fn_1_1, lib })

`world` interprets the indirect calls through `static_fn.get_instance_proc_addr`. -/
def new_custom {L : Type} (world : GipaSem) (open_ : Except LoadingError L)
    (load : L → Name → Ptr × L) : Except LoadingError (EntryCustom L) :=
  match open_ with
  | .error e => .error e
  | .ok lib =>
    let s := StaticFn.load load lib
    let static_fn := s.1
    let lib := s.2
    let entry_fn_1_0 := EntryFnV1_0.load fun name =>
      world static_fn.get_instance_proc_addr VkInstance.null name
    let entry_fn_1_1 := EntryFnV1_1.load fun name =>
      world static_fn.get_instance_proc_addr VkInstance.null name
    .ok { static_fn, entry_fn_1_0, entry_fn_1_1, lib }

/-- The platform's target OS family, selected at compile time by `#[cfg]`. -/
inductive TargetOS where
  | windows
  | unixGeneric
  | android
  | apple
  deriving Repr, DecidableEq

/-- Constant `LIB_PATH` (entry.rs lines 15-28): one fixed compile-time filename per
target OS family. -/
def LIB_PATH : TargetOS → String
  | .windows => "vulkan-1.dll"
  | .unixGeneric => "libvulkan.so.1"
  | .android => "libvulkan.so"
  | .apple => "libvulkan.dylib"

/-- Handle type `shared_library::dynamic_library::DynamicLibrary`: an external crate's
handle, opaque to this core. -/
structure DynamicLibrary where
  id : Nat
  deriving Repr, DecidableEq

/-- The default symbol-resolution closure passed by `Entry::new`
(entry.rs lines 207-211):

    |vk_lib, name| unsafe {
        vk_lib.symbol(&*name.to_string_lossy()).unwrap_or(ptr::null_mut())
    }

`symbol` models the external `DynamicLibrary::symbol`, which returns either a
raw address or an error string. -/
def default_load (symbol : DynamicLibrary → Name → Except String Ptr)
    (vk_lib : DynamicLibrary) (name : Name) : Ptr :=
  match symbol vk_lib name with
  | .ok p => p
  | .error _ => nullPtr

/-- Constructor `EntryCustom::<Arc<DynamicLibrary>>::new` (entry.rs lines 200-213):

    Self::new_custom(
        || DynamicLibrary::open(Some(&Path::new(LIB_PATH)))
               .map_err(|err| LoadingError::LibraryLoadError(err.clone()))
               .map(|dl| Arc::new(dl)),
        |vk_lib, name| unsafe { vk_lib.symbol(...).unwrap_or(ptr::null_mut()) },
    )

`openDL` models the external `DynamicLibrary::open` applied to a path;
`symbol` models the external `DynamicLibrary::symbol`.  The `Arc` wrapper is
identity in this model. -/
def new (os : TargetOS) (world : GipaSem)
    (openDL : String → Except String DynamicLibrary)
    (symbol : DynamicLibrary → Name → Except String Ptr) :
    Except LoadingError (EntryCustom DynamicLibrary) :=
  new_custom world
    (match openDL (LIB_PATH os) with
      | .ok dl => .ok dl
      | .error err => .error (LoadingError.LibraryLoadError err))
    (fun vk_lib name => (default_load symbol vk_lib name, vk_lib))

/-- Type `vk::InstanceCreateInfo`: its fields are opaque to `entry.rs`, which only
passes a reference through to the native call. -/
structure InstanceCreateInfo where
  raw : Nat
  deriving Repr, DecidableEq

/-- Type `vk::AllocationCallbacks`, likewise opaque. -/
structure AllocationCallbacks where
  raw : Nat
  deriving Repr, DecidableEq

/-- The next-layer `Instance` component; `Instance::load` (external to
`entry.rs`) takes the static function table and the raw handle.  Producing a
value of this type is exactly the handoff to the next layer. -/
structure Instance where
  static_fn : StaticFn
  handle : VkInstance
  deriving Repr, DecidableEq

/-- Call `Instance::load(&self.static_fn, instance)`: constructing the next-layer
instance from the static table and the raw handle. -/
def Instance.load (static_fn : StaticFn) (handle : VkInstance) : Instance :=
  { static_fn, handle }

/-- Method `EntryV1_0::create_instance` for `EntryCustom<L>` (entry.rs lines
141-156), with the resolved native creation function supplied as the mock
`createFn` (given the create info and optional allocation callbacks, it
returns its status and the handle it writes through `&mut instance`):

    let mut instance: vk::Instance = mem::zeroed();
    let err_code = self.fp_v1_0().create_instance(create_info,
        allocation_callbacks.as_raw_ptr(), &mut instance);
    if err_code != vk::Result::SUCCESS {
        return Err(InstanceError::VkError(err_code));
    }
    Ok(Instance::load(&self.static_fn, instance))

The second component of the result counts the calls made after the native
creation call returned, i.e. the `Instance::load` handoffs (the only further
call the source can make). -/
def create_instance {L : Type} (e : EntryCustom L)
    (createFn : InstanceCreateInfo → Option AllocationCallbacks →
      VkResult × VkInstance)
    (create_info : InstanceCreateInfo)
    (allocation_callbacks : Option AllocationCallbacks) :
    Except InstanceError Instance × Nat :=
  let r := createFn create_info allocation_callbacks
  let err_code := r.1
  let inst := r.2
  if err_code ≠ VkResult.SUCCESS then
    (.error (InstanceError.VkError err_code), 0)
  else
    (.ok (Instance.load e.static_fn inst), 1)

/-- The semantics of calling through a `PFN_vkEnumerateInstanceVersion`-typed
pointer: the status returned and the value written through `&mut api_version`.
Native behaviour outside the Rust code, supplied as a parameter. -/
abbrev VersionSem := Ptr → VkResult × Nat

/-- Method `EntryV1_1::enumerate_instance_version` (entry.rs lines 170-179), with
`sem` interpreting the call through the tier-1.1 table's pointer:

    let mut api_version = 0;
    let err_code = self.fp_v1_1().enumerate_instance_version(&mut api_version);
    match err_code { vk::Result::SUCCESS => Ok(api_version), _ => Err(err_code) } -/
def enumerate_instance_version {L : Type} (e : EntryCustom L)
    (sem : VersionSem) : Except VkResult Nat :=
  let r := sem e.entry_fn_1_1.enumerate_instance_version
  let err_code := r.1
  let api_version := r.2
  if err_code = VkResult.SUCCESS then .ok api_version else .error err_code

/-- Method `EntryCustom::try_enumerate_instance_version` (entry.rs lines 260-280),
with `world` interpreting the `get_instance_proc_addr` call and `sem`
interpreting the call through the freshly resolved pointer:

    let enumerate_instance_version: Option<PFN_vkEnumerateInstanceVersion> = {
        let name = b"vkEnumerateInstanceVersion\0"...;
        mem::transmute(self.static_fn().get_instance_proc_addr(vk::Instance::null(), name))
    };
    if let Some(f) = enumerate_instance_version {
        let err_code = f(&mut api_version);
        match err_code { SUCCESS => Ok(Some(api_version)), _ => Err(err_code) }
    } else { Ok(None) }

Transmuting a null pointer to `Option<fn>` yields `None`, so the resolved
pointer is invocable exactly when it is non-null. -/
def try_enumerate_instance_version {L : Type} (e : EntryCustom L)
    (world : GipaSem) (sem : VersionSem) : Except VkResult (Option Nat) :=
  let p := world e.static_fn.get_instance_proc_addr VkInstance.null
    "vkEnumerateInstanceVersion"
  if p ≠ nullPtr then
    let r := sem p
    let err_code := r.1
    let api_version := r.2
    if err_code = VkResult.SUCCESS then .ok (some api_version)
    else .error err_code
  else
    .ok none

/-!
Theorems settling the specification claims.
-/

/-- Helper: the logical length after `set_len len` is exactly `len`. -/
theorem vecAfterSetLen_length {α : Type} (written : List α) (len : Nat) :
    (vecAfterSetLen written len).length = len := by
  unfold vecAfterSetLen
  rw [List.length_take, List.length_append, List.length_map,
    List.length_replicate]
  omega

/-- Mock driver whose count probe fails (status `-1`, `ERROR_OUT_OF_HOST_MEMORY`)
while the fill call succeeds reporting zero items. -/
def mockProbeFails : MockEnum LayerProperties :=
  { call1 := (-1, 0), call2 := fun _ => (VkResult.SUCCESS, 0, []) }

/-- Mock driver whose fill call fails with status `-4`. -/
def mockFillFails : MockEnum LayerProperties :=
  { call1 := (VkResult.SUCCESS, 3), call2 := fun _ => (-4, 3, []) }

/-- Mock driver that reports 3 layers and fills 3 entries successfully. -/
def mockThreeLayers : MockEnum LayerProperties :=
  { call1 := (VkResult.SUCCESS, 3)
    call2 := fun _ => (VkResult.SUCCESS, 3, [⟨10⟩, ⟨11⟩, ⟨12⟩]) }

/-- Mock driver whose extension fill call fails with status `-4`. -/
def mockExtFillFails : MockEnum ExtensionProperties :=
  { call1 := (VkResult.SUCCESS, 2), call2 := fun _ => (-4, 2, []) }

/-- Mock driver whose count grows from 0 to 5 between the two calls. -/
def mockGrowingCount : MockEnum LayerProperties :=
  { call1 := (VkResult.SUCCESS, 0)
    call2 := fun _ => (VkResult.SUCCESS, 5, []) }

/-- Mock extension driver whose count grows from 1 to 4 between the calls. -/
def mockExtGrowingCount : MockEnum ExtensionProperties :=
  { call1 := (VkResult.SUCCESS, 1)
    call2 := fun _ => (VkResult.SUCCESS, 4, [⟨0⟩]) }

/-- A concrete facade used as input to the witnesses: every table entry holds
an arbitrary non-null pointer. -/
def facadeW : EntryCustom Unit :=
  { static_fn := { get_instance_proc_addr := 5 }
    entry_fn_1_0 := { create_instance := 6
                      enumerate_instance_extension_properties := 7
                      enumerate_instance_layer_properties := 8 }
    entry_fn_1_1 := { enumerate_instance_version := 9 }
    lib := () }

/-- Interpretation under which `get_instance_proc_addr` resolves nothing. -/
def worldNull : GipaSem := fun _ _ _ => nullPtr

/-- Interpretation under which `get_instance_proc_addr` resolves every name
to the pointer `7`. -/
def worldSeven : GipaSem := fun _ _ _ => 7

/-- Version function that succeeds with the encoded version 1.2.0. -/
def semVersionOk : VersionSem := fun _ => (VkResult.SUCCESS, 4194304)

/-- Version function that fails with status `-3`. -/
def semVersionErr : VersionSem := fun _ => (-3, 0)

/-- Native creation function that fails with status `-5`. -/
def createFnErr : InstanceCreateInfo → Option AllocationCallbacks →
    VkResult × VkInstance := fun _ _ => (-5, 0)

/-- Native creation function that succeeds with handle `42`. -/
def createFnOk : InstanceCreateInfo → Option AllocationCallbacks →
    VkResult × VkInstance := fun _ _ => (VkResult.SUCCESS, 42)

/-- A stateful resolver whose pointer output depends only on the name (the
state is bumped at each call, but the address returned is deterministic). -/
def loadW : Nat → Name → Ptr × Nat := fun s n => (n.length, s + 1)

/-- Interpretation of `get_instance_proc_addr` calls used by the witnesses:
the resolved address depends on the pointer invoked and the name. -/
def worldW : GipaSem := fun p _ n => p + n.length

/-- Native library open that always fails with a diagnostic. -/
def openDLFail : String → Except String DynamicLibrary :=
  fun _ => Except.error "file not found"

/-- Native symbol lookup that always succeeds with an arbitrary address. -/
def symbolW : DynamicLibrary → Name → Except String Ptr :=
  fun _ _ => Except.ok 3

/-- Every field of these facade records is a concrete numeral, so the default
element is available for extracting a facade from an `Except`. -/
instance {L : Type} [Inhabited L] : Inhabited (EntryCustom L) :=
  ⟨{ static_fn := { get_instance_proc_addr := 0 }
     entry_fn_1_0 := { create_instance := 0
                       enumerate_instance_extension_properties := 0
                       enumerate_instance_layer_properties := 0 }
     entry_fn_1_1 := { enumerate_instance_version := 0 }
     lib := default }⟩

/-- Native symbol lookup that always fails with a diagnostic. -/
def symbolFail : DynamicLibrary → Name → Except String Ptr :=
  fun _ _ => Except.error "undefined symbol"

/-- Claim C1, counterexample: with a driver whose first (count probe) call
returns the non-success status `-1` and whose second (fill) call succeeds,
`enumerate_instance_layer_properties` returns `Ok` with an empty sequence
rather than returning the probe's status as an error — the source discards
the first call's status, so the claim as stated is false. -/
theorem C1_counterexample :
    mockProbeFails.call1.1 ≠ VkResult.SUCCESS ∧
    (enumerate_instance_layer_properties mockProbeFails).result =
      Except.ok [] := by
  constructor
  · decide
  · rfl

/-- Claim C1 (amended): for every resolver, the two enumeration operations
treat a non-success status from the second (fill) call as an error — the
first call's status is discarded — returning that status as the error with
no partial sequence, and on a successful second call return a sequence whose
length is exactly the count reported by that second call. -/
theorem C1_enumeration_error_handling :
    (∀ m : MockEnum LayerProperties,
      ((m.call2 m.call1.2).1 ≠ VkResult.SUCCESS →
        (enumerate_instance_layer_properties m).result =
          Except.error (m.call2 m.call1.2).1) ∧
      ((m.call2 m.call1.2).1 = VkResult.SUCCESS →
        ∃ v, (enumerate_instance_layer_properties m).result = Except.ok v ∧
          v.length = (m.call2 m.call1.2).2.1)) ∧
    (∀ m : MockEnum ExtensionProperties,
      ((m.call2 m.call1.2).1 ≠ VkResult.SUCCESS →
        (enumerate_instance_extension_properties m).result =
          Except.error (m.call2 m.call1.2).1) ∧
      ((m.call2 m.call1.2).1 = VkResult.SUCCESS →
        ∃ v, (enumerate_instance_extension_properties m).result = Except.ok v ∧
          v.length = (m.call2 m.call1.2).2.1)) := by
  constructor
  · intro m
    constructor
    · intro h
      simp [enumerate_instance_layer_properties, h]
    · intro h
      refine ⟨vecAfterSetLen (m.call2 m.call1.2).2.2 (m.call2 m.call1.2).2.1,
        ?_, vecAfterSetLen_length _ _⟩
      simp [enumerate_instance_layer_properties, h]
  · intro m
    constructor
    · intro h
      simp [enumerate_instance_extension_properties, h]
    · intro h
      refine ⟨vecAfterSetLen (m.call2 m.call1.2).2.2 (m.call2 m.call1.2).2.1,
        ?_, vecAfterSetLen_length _ _⟩
      simp [enumerate_instance_extension_properties, h]

/-- Claim C1 (amended), witness: concrete drivers exercising both the failing
fill call and the successful three-entry enumeration. -/
theorem C1_enumeration_error_handling_witness :
    (enumerate_instance_layer_properties mockFillFails).result =
      Except.error (-4) ∧
    (∃ v, (enumerate_instance_layer_properties mockThreeLayers).result =
      Except.ok v ∧ v.length = 3) ∧
    (enumerate_instance_extension_properties mockExtFillFails).result =
      Except.error (-4) :=
  ⟨(C1_enumeration_error_handling.1 mockFillFails).1 (by decide),
   (C1_enumeration_error_handling.1 mockThreeLayers).2 (by decide),
   (C1_enumeration_error_handling.2 mockExtFillFails).1 (by decide)⟩

/-- Claim C4: in both enumeration operations the vector is allocated with
capacity equal to the count reported by the first call and its length is then
set to the count reported by the second call; the `set_len` stays within the
allocated capacity exactly when the second count does not exceed the first,
and no guard exists — drivers whose count grows between the calls drive
`set_len` past the capacity. -/
theorem C4_capacity_and_set_len :
    (∀ m : MockEnum LayerProperties,
      (enumerate_instance_layer_properties m).capacity = m.call1.2 ∧
      (enumerate_instance_layer_properties m).setLen =
        (m.call2 m.call1.2).2.1 ∧
      ((enumerate_instance_layer_properties m).setLen ≤
          (enumerate_instance_layer_properties m).capacity ↔
        (m.call2 m.call1.2).2.1 ≤ m.call1.2)) ∧
    (∀ m : MockEnum ExtensionProperties,
      (enumerate_instance_extension_properties m).capacity = m.call1.2 ∧
      (enumerate_instance_extension_properties m).setLen =
        (m.call2 m.call1.2).2.1 ∧
      ((enumerate_instance_extension_properties m).setLen ≤
          (enumerate_instance_extension_properties m).capacity ↔
        (m.call2 m.call1.2).2.1 ≤ m.call1.2)) ∧
    ((enumerate_instance_layer_properties mockGrowingCount).capacity <
      (enumerate_instance_layer_properties mockGrowingCount).setLen) ∧
    ((enumerate_instance_extension_properties mockExtGrowingCount).capacity <
      (enumerate_instance_extension_properties mockExtGrowingCount).setLen) :=
  ⟨fun _ => ⟨rfl, rfl, Iff.rfl⟩, fun _ => ⟨rfl, rfl, Iff.rfl⟩,
    by decide, by decide⟩

/-- Claim C2: `try_enumerate_instance_version` resolves the version-query
symbol through the static function table at call time with a null instance
handle; if that resolution yields null it returns `Ok(None)`, if the resolved
function returns the success status with a version value it returns
`Ok(Some(value))`, and if it returns a non-success status it returns that
status as the error. -/
theorem C2_try_enumerate_instance_version (L : Type) (e : EntryCustom L)
    (world : GipaSem) (sem : VersionSem) :
    (world e.static_fn.get_instance_proc_addr VkInstance.null
        "vkEnumerateInstanceVersion" = nullPtr →
      try_enumerate_instance_version e world sem = Except.ok none) ∧
    (∀ p, world e.static_fn.get_instance_proc_addr VkInstance.null
        "vkEnumerateInstanceVersion" = p → p ≠ nullPtr →
      ((sem p).1 = VkResult.SUCCESS →
        try_enumerate_instance_version e world sem =
          Except.ok (some (sem p).2)) ∧
      ((sem p).1 ≠ VkResult.SUCCESS →
        try_enumerate_instance_version e world sem =
          Except.error (sem p).1)) := by
  constructor
  · intro h
    simp [try_enumerate_instance_version, h]
  · intro p hp hnull
    subst hp
    constructor
    · intro h
      simp [try_enumerate_instance_version, hnull, h]
    · intro h
      simp [try_enumerate_instance_version, hnull, h]

/-- Claim C2, witness: the three behaviours at concrete resolvers. -/
theorem C2_try_enumerate_instance_version_witness :
    try_enumerate_instance_version facadeW worldNull semVersionOk =
      Except.ok none ∧
    try_enumerate_instance_version facadeW worldSeven semVersionOk =
      Except.ok (some 4194304) ∧
    try_enumerate_instance_version facadeW worldSeven semVersionErr =
      Except.error (-3) :=
  ⟨(C2_try_enumerate_instance_version Unit facadeW worldNull semVersionOk).1
      rfl,
   ((C2_try_enumerate_instance_version Unit facadeW worldSeven
      semVersionOk).2 7 rfl (by decide)).1 rfl,
   ((C2_try_enumerate_instance_version Unit facadeW worldSeven
      semVersionErr).2 7 rfl (by decide)).2 (by decide)⟩

/-- Claim C8: `enumerate_instance_version` returns `Ok` with the version value
written by the driver when the native call returns the success status, and
otherwise returns the raw native status unchanged as the error. -/
theorem C8_enumerate_instance_version (L : Type) (e : EntryCustom L)
    (sem : VersionSem) :
    ((sem e.entry_fn_1_1.enumerate_instance_version).1 = VkResult.SUCCESS →
      enumerate_instance_version e sem =
        Except.ok (sem e.entry_fn_1_1.enumerate_instance_version).2) ∧
    ((sem e.entry_fn_1_1.enumerate_instance_version).1 ≠ VkResult.SUCCESS →
      enumerate_instance_version e sem =
        Except.error (sem e.entry_fn_1_1.enumerate_instance_version).1) := by
  constructor
  · intro h
    simp [enumerate_instance_version, h]
  · intro h
    simp [enumerate_instance_version, h]

/-- Claim C8, witness: a succeeding and a failing native version call. -/
theorem C8_enumerate_instance_version_witness :
    enumerate_instance_version facadeW semVersionOk = Except.ok 4194304 ∧
    enumerate_instance_version facadeW semVersionErr = Except.error (-3) :=
  ⟨(C8_enumerate_instance_version Unit facadeW semVersionOk).1 rfl,
   (C8_enumerate_instance_version Unit facadeW semVersionErr).2 (by decide)⟩

/-- Claim C3: when the native creation function returns a non-success status,
`create_instance` returns `InstanceError::VkError` carrying exactly that
status and performs no further calls (the `Instance::load` handoff count is
zero); the handoff to the next layer happens only on the success status. -/
theorem C3_create_instance (L : Type) (e : EntryCustom L)
    (createFn : InstanceCreateInfo → Option AllocationCallbacks →
      VkResult × VkInstance)
    (create_info : InstanceCreateInfo)
    (allocation_callbacks : Option AllocationCallbacks)
    (s : VkResult) (h : VkInstance)
    (hcall : createFn create_info allocation_callbacks = (s, h)) :
    (s ≠ VkResult.SUCCESS →
      create_instance e createFn create_info allocation_callbacks =
        (Except.error (InstanceError.VkError s), 0)) ∧
    (s = VkResult.SUCCESS →
      create_instance e createFn create_info allocation_callbacks =
        (Except.ok (Instance.load e.static_fn h), 1)) := by
  constructor
  · intro hs
    simp [create_instance, hcall, hs]
  · intro hs
    simp [create_instance, hcall, hs]

/-- Claim C3, witness: a failing and a succeeding creation call. -/
theorem C3_create_instance_witness :
    create_instance facadeW createFnErr ⟨0⟩ none =
      (Except.error (InstanceError.VkError (-5)), 0) ∧
    create_instance facadeW createFnOk ⟨0⟩ none =
      (Except.ok (Instance.load facadeW.static_fn 42), 1) :=
  ⟨(C3_create_instance Unit facadeW createFnErr ⟨0⟩ none (-5) 0 rfl).1
      (by decide),
   (C3_create_instance Unit facadeW createFnOk ⟨0⟩ none VkResult.SUCCESS 42
      rfl).2 rfl⟩

/-- Claim C5 (table loading modelled from the spec, `vk.rs` being generated
code outside `src/`): `new_custom` succeeds whenever the open strategy
returns `Ok` — the three function tables are then loaded unconditionally and
no symbol-resolver behaviour can fail construction, since the resolver is
universally quantified — and it fails exactly when the open strategy fails,
propagating that error. -/
theorem C5_new_custom_fails_only_on_open (L : Type) (world : GipaSem)
    (open_ : Except LoadingError L) (load : L → Name → Ptr × L) :
    (∀ lib, open_ = Except.ok lib →
      ∃ ec, new_custom world open_ load = Except.ok ec) ∧
    (∀ err, open_ = Except.error err →
      new_custom world open_ load = Except.error err) := by
  constructor
  · rintro lib rfl
    exact ⟨_, rfl⟩
  · rintro err rfl
    rfl

/-- Claim C5, witness: construction succeeds on a concrete open success
(with a resolver that returns many nulls is also fine; this one does not),
and propagates a concrete open failure. -/
theorem C5_new_custom_fails_only_on_open_witness :
    (∃ ec, new_custom worldW (Except.ok 3) loadW = Except.ok ec) ∧
    new_custom worldW
        (Except.error (LoadingError.LibraryLoadError "missing")) loadW =
      Except.error (LoadingError.LibraryLoadError "missing") :=
  ⟨(C5_new_custom_fails_only_on_open Nat worldW (Except.ok 3) loadW).1 3 rfl,
   (C5_new_custom_fails_only_on_open Nat worldW
      (Except.error (LoadingError.LibraryLoadError "missing")) loadW).2 _ rfl⟩

/-- Claim C6: when the platform shared library cannot be opened, `Entry::new`
returns `LoadingError::LibraryLoadError` carrying the native loader's
diagnostic string (the model is a total function, so no panic is possible). -/
theorem C6_new_library_load_error (os : TargetOS) (world : GipaSem)
    (openDL : String → Except String DynamicLibrary)
    (symbol : DynamicLibrary → Name → Except String Ptr) (msg : String)
    (h : openDL (LIB_PATH os) = Except.error msg) :
    new os world openDL symbol =
      Except.error (LoadingError.LibraryLoadError msg) := by
  simp [new, new_custom, h]

/-- Claim C6, witness: on generic Unix with a missing `libvulkan.so.1`, the
diagnostic string is wrapped into `LibraryLoadError`. -/
theorem C6_new_library_load_error_witness :
    new TargetOS.unixGeneric worldW openDLFail symbolW =
      Except.error (LoadingError.LibraryLoadError "file not found") :=
  C6_new_library_load_error TargetOS.unixGeneric worldW openDLFail symbolW
    "file not found" rfl

/-- Claim C7 (table loading modelled from the spec, `vk.rs` being generated
code outside `src/`): two constructions through `new_custom` from the same
(open, resolve) strategy pair — even starting from different resolver states —
yield function tables with pointer-equal resolved addresses for every symbol,
provided the resolver is deterministic (the pointer it returns for a name
does not depend on its state). -/
theorem C7_construction_idempotent (L : Type) (world : GipaSem)
    (load : L → Name → Ptr × L)
    (hdet : ∀ s t n, (load s n).1 = (load t n).1) (l1 l2 : L)
    (e1 e2 : EntryCustom L)
    (h1 : new_custom world (Except.ok l1) load = Except.ok e1)
    (h2 : new_custom world (Except.ok l2) load = Except.ok e2) :
    e1.static_fn = e2.static_fn ∧ e1.entry_fn_1_0 = e2.entry_fn_1_0 ∧
      e1.entry_fn_1_1 = e2.entry_fn_1_1 := by
  have hs : (StaticFn.load load l1).1 = (StaticFn.load load l2).1 := by
    simp only [StaticFn.load]
    exact congrArg StaticFn.mk (hdet l1 l2 "vkGetInstanceProcAddr")
  simp only [new_custom, Except.ok.injEq] at h1 h2
  subst h1
  subst h2
  refine ⟨hs, ?_, ?_⟩ <;> rw [hs]

/-- Claim C7, witness: two constructions with the stateful-but-deterministic
resolver `loadW`, started from the distinct states `0` and `5`, agree on all
three tables. -/
theorem C7_construction_idempotent_witness :
    ((new_custom worldW (Except.ok 0) loadW).toOption.getD
        default).static_fn =
      ((new_custom worldW (Except.ok 5) loadW).toOption.getD
        default).static_fn ∧
    ((new_custom worldW (Except.ok 0) loadW).toOption.getD
        default).entry_fn_1_0 =
      ((new_custom worldW (Except.ok 5) loadW).toOption.getD
        default).entry_fn_1_0 ∧
    ((new_custom worldW (Except.ok 0) loadW).toOption.getD
        default).entry_fn_1_1 =
      ((new_custom worldW (Except.ok 5) loadW).toOption.getD
        default).entry_fn_1_1 :=
  C7_construction_idempotent Nat worldW loadW (fun _ _ _ => rfl) 0 5 _ _
    rfl rfl

/-- Claim C9: the default symbol-resolution closure that `Entry::new` passes
to `new_custom` never fails hard — when the library cannot resolve a name,
it yields the null pointer rather than an error or a panic. -/
theorem C9_default_load_null_on_failure
    (symbol : DynamicLibrary → Name → Except String Ptr)
    (vk_lib : DynamicLibrary) (name : Name) (e : String)
    (h : symbol vk_lib name = Except.error e) :
    default_load symbol vk_lib name = nullPtr := by
  simp [default_load, h]

/-- Claim C9, witness: a concrete failing lookup yields the null pointer. -/
theorem C9_default_load_null_on_failure_witness :
    default_load symbolFail ⟨0⟩ "vkGetInstanceProcAddr" = nullPtr :=
  C9_default_load_null_on_failure symbolFail ⟨0⟩ "vkGetInstanceProcAddr"
    "undefined symbol" rfl

/-- Claim C10: the shared-library filename is a fixed compile-time string per
target OS family — `vulkan-1.dll` on Windows, `libvulkan.so.1` on generic
Unix, `libvulkan.so` on Android, `libvulkan.dylib` on Apple platforms. -/
theorem C10_lib_path_fixed :
    LIB_PATH TargetOS.windows = "vulkan-1.dll" ∧
    LIB_PATH TargetOS.unixGeneric = "libvulkan.so.1" ∧
    LIB_PATH TargetOS.android = "libvulkan.so" ∧
    LIB_PATH TargetOS.apple = "libvulkan.dylib" :=
  ⟨rfl, rfl, rfl, rfl⟩
